import Mathlib

/-!
# Documenter search corpora of Microbiome.jl

The repository ships two generated scripts, `latest/search_index.js` and
`release-0.1/search_index.js`.  Each consists of the single top-level statement
`var documenterSearchIndex = {"docs": [ ... ]}`.  This development embeds the two
scripts as data (string, array and object literals), gives the statement its
JavaScript meaning on a global scope, and proves the properties of the shipped
records.
-/

namespace SearchIndex

/-- The JavaScript values that occur in the two scripts: string literals, array
literals and object literals (properties in the order they are written);
`undefined` is the value of a hoisted `var` before its initialiser runs. -/
inductive JSValue where
  | undefined : JSValue
  | str (s : String) : JSValue
  | arr (items : List JSValue) : JSValue
  | obj (props : List (String × JSValue)) : JSValue

/-- A script made of one top-level statement `var name = init`. -/
inductive Script where
  | varDecl (name : String) (init : JSValue) : Script

/-- The object bound by `latest/search_index.js`. -/
def latest.documenterSearchIndex : JSValue :=
  .obj [("docs", .arr [
  .obj [
    ("location", .str "index.html#"),
    ("page", .str "Home"),
    ("title", .str "Home"),
    ("category", .str "page"),
    ("text", .str "")],
  .obj [
    ("location", .str "index.html#Microbiome.jl-smallFor-analysis-of-microbiome-and-microbial-community-data/small-1"),
    ("page", .str "Home"),
    ("title", .str "Microbiome.jl <small>For analysis of microbiome and microbial community data</small>"),
    ("category", .str "section"),
    ("text", .str "(Image: Latest Release) (Image: Microbiome) (Image: License) (Image: ) (Image: ) (Image: BioJulia maintainer: kescobo)Development builds: (Image: Build Status)")],
  .obj [
    ("location", .str "index.html#Description-1"),
    ("page", .str "Home"),
    ("title", .str "Description"),
    ("category", .str "section"),
    ("text", .str "Microbiome.jl is a package for manipulating and analyzing microbiome and microbial community data. Many functions have been added to external packages and are imported here.")],
  .obj [
    ("location", .str "index.html#Installation-1"),
    ("page", .str "Home"),
    ("title", .str "Installation"),
    ("category", .str "section"),
    ("text", .str "Install Microbiome from the Julia REPL:julia> Pkg.add(\"Microbiome\")If you are interested in the cutting edge of the development, please check out the master branch to try new features before release.julia> Pkg.checkout(\"Microbiome\")")],
  .obj [
    ("location", .str "abundances.html#"),
    ("page", .str "Microbial Abundances"),
    ("title", .str "Microbial Abundances"),
    ("category", .str "page"),
    ("text", .str "")],
  .obj [
    ("location", .str "abundances.html#Working-with-microbial-abundances-1"),
    ("page", .str "Microbial Abundances"),
    ("title", .str "Working with microbial abundances"),
    ("category", .str "section"),
    ("text", .str "Tables of abundances are based off ComMatrix types from SpatialEcology.jl, where columns are samples and rows are features (eg species). Sample and feature names are also stored, and there's a convenience function if you want to convert a DataFrame to a ComMatrix, assuming the first column contains feature names:using Microbiome\nusing DataFrames\n\ndf = DataFrame(species=[\"E. coli\", \"B. fragilis\", \"L. casei\"],\n                      sample1=[1, 4, 5],\n                      sample2=[3, 8, 0],\n                      sample3=[0, 3, 4]);\n\nabund = abundancetable(df)Forgive the clutter... ComMatricies name rows as species (which is true in this case, but need not be), and columns are \"sites\" rather than samples. That will be fixed eventually.samplenames(abund)\nfeaturenames(abund)\nsampletotals(abund) # this is column sums\nfeaturetotals(abund) # this is row sumsIf you want relative abundance, you can do relativeabundance(abund) or relativeabundance!(abund):relativeabundance!(abund)\n\nsampletotals(abund)You can also filter on the n most abundant features accross the dataset. This function automatically generates an n+1 row for other containing the remaining features. Note - these doesn't modify in-place, so you've gotta reassign if you want to update:abund2 = filterabund(abund, 1)\n\nfeaturenames(abund2)")],
  .obj [
    ("location", .str "abundances.html#Plotting-1"),
    ("page", .str "Microbial Abundances"),
    ("title", .str "Plotting"),
    ("category", .str "section"),
    ("text", .str "Some convenience plotting types are available using RecipesBase and StatPlotsusing StatPlots\n\nsrand(1) # hide\n\nabund = abundancetable(\n           rand(100, 10),\n           [\"sample_$x\" for x in 1:10],\n           [\"feature_$x\" for x in 1:100]);\nrelativeabundance!(abund)\n\nabundanceplot(abund)\n\nsavefig(\"abundanceplot.png\"); nothing # hide(Image: )")],
  .obj [
    ("location", .str "distances.html#"),
    ("page", .str "Distances & Dissimilarity"),
    ("title", .str "Distances & Dissimilarity"),
    ("category", .str "page"),
    ("text", .str "")],
  .obj [
    ("location", .str "distances.html#Working-with-Distances-/-Dissimilarity-1"),
    ("page", .str "Distances & Dissimilarity"),
    ("title", .str "Working with Distances / Dissimilarity"),
    ("category", .str "section"),
    ("text", .str "Quite often, it's useful to boil stuff down to distances between samples. For this, I'm using an interface with Distances.jl to generate a symetric DistanceMatrix, which also contains a vector for samples, and a field specifying which type of distance was used to calulate it. You can load one in manually, or generate it from an AbundanceTable.using Distances\nusing Microbiome\n\nabund = abundancetable([1  3  0;\n                        4  8  3;\n                        5  0  4]);\n\ndm = getdm(abund, BrayCurtis())I've also implemented a method to do a principle coordinates analysis. If necessary, you can include correct_neg=true to use the correction method described in Lingoes (1971)p = pcoa(dm)\n\neigenvalue(p, 2)\nprincipalcoord(p, 1)\nvariance(p, [1,2])")],
  .obj [
    ("location", .str "distances.html#Plotting-1"),
    ("page", .str "Distances & Dissimilarity"),
    ("title", .str "Plotting"),
    ("category", .str "section"),
    ("text", .str "Some convenience plotting types are available using RecipesBase.using StatPlots\n\nsrand(1) # hide\nabund = abundancetable(\n    rand(100, 10),\n    [\"sample_$x\" for x in 1:10],\n    [\"feature_$x\" for x in 1:100]);\n\ndm = getdm(abund, BrayCurtis());\np = pcoa(dm, correct_neg=true);\n\nplot(p, title=\"Random PCoA\")\nsavefig(\"pcoplot.png\"); nothing # hide(Image: pcoa plot)")],
  .obj [
    ("location", .str "distances.html#Optimal-Leaf-Ordering-1"),
    ("page", .str "Distances & Dissimilarity"),
    ("title", .str "Optimal Leaf Ordering"),
    ("category", .str "section"),
    ("text", .str "I've also provided a plotting recipe for making treeplots for Hclust objects from the Clustering.jl package:using Clustering\n\ndm = [0. .1 .2\n      .1 0. .15\n      .2 .15 0.];\n\nh = hclust(dm, :single);\nh.labels = [\"a\", \"b\", \"c\"];\n\nhclustplot(h)\nsavefig(\"hclustplot1.png\"); nothing # hide(Image: hclust plot 1)Note that even though this is a valid tree, the leaf a is closer to leaf c, despite the fact that c is more similar to b than to a. This can be fixed with a method derived from the paper:Bar-Joseph et. al. \"Fast optimal leaf ordering for hierarchical clustering.\" _Bioinformatics_. (2001)optimalorder!(h, dm)\nhclustplot(h)\n\nsavefig(\"hclustplot2.png\"); nothing # hide(Image: hclust plot 1)")],
  .obj [
    ("location", .str "contributing.html#"),
    ("page", .str "Contributing"),
    ("title", .str "Contributing"),
    ("category", .str "page"),
    ("text", .str "")],
  .obj [
    ("location", .str "contributing.html#Contributing-1"),
    ("page", .str "Contributing"),
    ("title", .str "Contributing"),
    ("category", .str "section"),
    ("text", .str "The BioJulia organisation has a set of contribution guidelines which apply to all BioJulia projects. These guidelines are available here and it is recommended all new contributors read these guidelines before opening a pull request.")],
  .obj [
    ("location", .str "contributing.html#Making-a-contribution-1"),
    ("page", .str "Contributing"),
    ("title", .str "Making a contribution"),
    ("category", .str "section"),
    ("text", .str "If you're interested in adding functionality to Microbiome.jl, please feel free to open an issue or a pull request (PR) against the master branch. If you're not yet ready for that, you can also ask questions/start a discussion in the Bio.jl gitter channel. Work-in-progress PRs are fine, as discussion about approach and code review can happen in the PR.Before merging, any new code should be unit tested and have docs for newly exported functions, but if you don't know how to do this, don't worry, we can help!")]])]

/-- The object bound by `release-0.1/search_index.js`. -/
def release.documenterSearchIndex : JSValue :=
  .obj [("docs", .arr [
  .obj [
    ("location", .str "index.html#"),
    ("page", .str "Home"),
    ("title", .str "Home"),
    ("category", .str "page"),
    ("text", .str "")],
  .obj [
    ("location", .str "index.html#Microbiome.jl-smallFor-analysis-of-microbiome-and-microbial-community-data/small-1"),
    ("page", .str "Home"),
    ("title", .str "Microbiome.jl <small>For analysis of microbiome and microbial community data</small>"),
    ("category", .str "section"),
    ("text", .str "(Image: Latest Release) (Image: Microbiome) (Image: License) (Image: ) (Image: ) (Image: BioJulia maintainer: kescobo)Development builds: (Image: Build Status)")],
  .obj [
    ("location", .str "index.html#Description-1"),
    ("page", .str "Home"),
    ("title", .str "Description"),
    ("category", .str "section"),
    ("text", .str "Microbiome.jl is a package for manipulating and analyzing microbiome and microbial community data. Many functions have been added to external packages and are imported here.")],
  .obj [
    ("location", .str "index.html#Installation-1"),
    ("page", .str "Home"),
    ("title", .str "Installation"),
    ("category", .str "section"),
    ("text", .str "Install Microbiome from the Julia REPL:julia> Pkg.add(\"Microbiome\")If you are interested in the cutting edge of the development, please check out the master branch to try new features before release.julia> Pkg.checkout(\"Microbiome\")")],
  .obj [
    ("location", .str "abundances.html#"),
    ("page", .str "Microbial Abundances"),
    ("title", .str "Microbial Abundances"),
    ("category", .str "page"),
    ("text", .str "")],
  .obj [
    ("location", .str "abundances.html#Working-with-microbial-abundances-1"),
    ("page", .str "Microbial Abundances"),
    ("title", .str "Working with microbial abundances"),
    ("category", .str "section"),
    ("text", .str "The AbundanceTable type is treated like a 2D array where columns are samples and rows are features (eg species). Sample and feature names are also stored, and there's a convenience function if you want to convert a DataFrame to an AbundanceTable, assuming the first column contains feature names:julia> using Microbiome\njulia> using DataFrames\n\njulia> df = DataFrame(species=[\"E. coli\", \"B. fragilis\", \"L. casei\"],\n                      sample1=[1, 4, 5],\n                      sample2=[3, 8, 0],\n                      sample3=[0, 3, 4])\n3×4 DataFrames.DataFrame\n│ Row │ species     │ sample1 │ sample2 │ sample3 │\n├─────┼─────────────┼─────────┼─────────┼─────────┤\n│ 1   │ E. coli     │ 1       │ 3       │ 0       │\n│ 2   │ B. fragilis │ 4       │ 8       │ 3       │\n│ 3   │ L. casei    │ 5       │ 0       │ 4       │\n\njulia> abund = AbundanceTable(df)\n3×3 Microbiome.AbundanceTable\x7bInt64\x7d:\n 1  3  0\n 4  8  3\n 5  0  4If you want relative abundance, you can do relativeabundance(abund) or relativeabundance!(abund):julia> abund = relativeabundance(abund)\n3×3 Microbiome.AbundanceTable\x7bFloat64\x7d:\n 0.1  0.272727  0.0\n 0.4  0.727273  0.428571\n 0.5  0.0       0.571429\n ```\n\nYou can also filter on the `n` most abundant features accross the dataset. This\nfunction automatically generates an `n+1` row for `other` containing the\nremaining features. Note - these doesn't modify in-place, so you've gotta\nreassign if you want to update:\njulia julia> abund2 = filterabund(abund, 1) 2×3 Microbiome.AbundanceTable\x7bFloat64\x7d:  0.4  0.727273  0.428571  0.6  0.272727  0.571429julia> abund2.features 2-element Array\x7bString,1\x7d:  \"B. fragilis\"  \"other\"\n## Plotting\n\nSome convenience plotting types are available using [`RecipesBase`][1] and\n[StatPlots][2]\n\n[1]: https://github.com/juliaplots/recipesbase.jl\n[2]: https://github.com/juliaplots/StatPlots.jl\njulia using StatPlots # TODO: add actual exampleabund = AbundanceTable(     rand(100, 10), [\"sample_x for x in 110     feature_x\" for x in 1:100])abund = relativeabundance(abund) plot(abund, title=\"Random abundance\") ```")],
  .obj [
    ("location", .str "similarities.html#"),
    ("page", .str "Distances & Dissimilarity"),
    ("title", .str "Distances & Dissimilarity"),
    ("category", .str "page"),
    ("text", .str "")],
  .obj [
    ("location", .str "similarities.html#Working-with-Distances-/-Dissimilarity-1"),
    ("page", .str "Distances & Dissimilarity"),
    ("title", .str "Working with Distances / Dissimilarity"),
    ("category", .str "section"),
    ("text", .str "Quite often, it's useful to boil stuff down to distances between samples. For this, I'm using an interface with Distances.jl to generate a symetric DistanceMatrix, which also contains a vector for samples, and a field specifying which type of distance was used to calulate it. You can load one in manually, or generate it from an AbundanceTable.julia> using Distances\njulia> using Microbiome\n\njulia> abund = AbundanceTable([1  3  0;\n                               4  8  3;\n                               5  0  4])\n3×3 Microbiome.AbundanceTable\x7bInt64\x7d:\n 1  3  0\n 4  8  3\n 5  0  4\n\njulia> dm = getdm(abund, BrayCurtis())\n3×3 Microbiome.DistanceMatrix\x7bFloat64\x7d:\n 0.0       0.52381   0.176471\n 0.52381   0.0       0.666667\n 0.176471  0.666667  0.0I've also implemented a method to do a principle coordinates analysis. If necessary, you can include correct_neg=true to use the correction method described in [Lingoes (1971)][2]julia> p = pcoa(dm)\n\n3×2 Microbiome.PCoA\x7bFloat64\x7d:\n -0.251198   0.776895\n  0.79841   -0.170903\n -0.547212  -0.605992\n\njulia> eigenvalue(p, 2)\n0.0050620487880063784\n\njulia> principalcoord(p, 1)\n3-element Array\x7bFloat64,1\x7d:\n -0.251198\n  0.79841\n -0.547212\n\njulia> p.variance_explained\n2-element Array\x7bFloat64,1\x7d:\n 0.979751\n 0.0202492")],
  .obj [
    ("location", .str "similarities.html#Plotting-1"),
    ("page", .str "Distances & Dissimilarity"),
    ("title", .str "Plotting"),
    ("category", .str "section"),
    ("text", .str "Some convenience plotting types are available using [RecipesBase][1].[1]: https://github.com/juliaplots/recipesbase.jlusing StatPlots # TODO: add actual example\n\nabund = AbundanceTable(\n    rand(100, 10), [\"sample_$x\" for x in 1:10],\n    [\"feature_$x\" for x in 1:100])\n\ndm = getdm(abund, BrayCurtis())\np = pcoa(dm, correct_neg=true)\n\nplot(p, title=\"Random PCoA\")")],
  .obj [
    ("location", .str "contributing.html#"),
    ("page", .str "Contributing"),
    ("title", .str "Contributing"),
    ("category", .str "page"),
    ("text", .str "")],
  .obj [
    ("location", .str "contributing.html#Contributing-1"),
    ("page", .str "Contributing"),
    ("title", .str "Contributing"),
    ("category", .str "section"),
    ("text", .str "The BioJulia organisation has a set of contribution guidelines which apply to all BioJulia projects. These guidelines are available [here][1] and it is recommended all new contributors read these guidelines before opening a pull request.[1]: http://biojulia.github.io/Contributing/latest")],
  .obj [
    ("location", .str "contributing.html#Making-a-contribution-1"),
    ("page", .str "Contributing"),
    ("title", .str "Making a contribution"),
    ("category", .str "section"),
    ("text", .str "If you're interested in adding functionality to Microbiome.jl, please feel free to open an issue or a pull request (PR) against the master branch. If you're not yet ready for that, you can also ask questions/start a discussion in the [Bio.jl][2] gitter channel. [2]: https://gitter.im/BioJulia/Bio.jlWork-in-progress PRs are fine, as discussion about approach and code review can happen in the PR.Before merging, any new code should be unit tested and have docs for newly exported functions, but if you don't know how to do this, don't worry, we can help!")]])]


/-! ## Reading the literals -/

/-- Property access `v[key]`: of an object literal, the value written for `key`
(the last one, should a key be written twice); nothing for any other value. -/
def JSValue.getProp : JSValue → String → Option JSValue
  | .obj props, key => (props.reverse.find? (fun kv => kv.1 == key)).map (fun kv => kv.2)
  | _, _ => none

/-- The keys of an object literal, in the order written. -/
def JSValue.keys : JSValue → List String
  | .obj props => props.map (fun kv => kv.1)
  | _ => []

/-- The values of an object literal, in the order written. -/
def JSValue.values : JSValue → List JSValue
  | .obj props => props.map (fun kv => kv.2)
  | _ => []

/-- Holds of object literals only. -/
def JSValue.isObj : JSValue → Bool
  | .obj _ => true
  | _ => false

/-- Holds of string values only. -/
def JSValue.isStr : JSValue → Bool
  | .str _ => true
  | _ => false

/-- The string a value is, when it is one. -/
def JSValue.asStr : JSValue → Option String
  | .str s => some s
  | _ => none

/-- The string stored under `key` in a record: `none` when the key is missing
or its value is not a string. -/
def JSValue.field (r : JSValue) (key : String) : Option String :=
  (r.getProp key).bind JSValue.asStr

/-- The name a script declares. -/
def Script.name : Script → String
  | .varDecl name _ => name

/-- The value of a script's initialiser. -/
def Script.init : Script → JSValue
  | .varDecl _ init => init

/-- The `docs` array of a `documenterSearchIndex` object. -/
def docs (ix : JSValue) : List JSValue :=
  match ix.getProp "docs" with
  | some (.arr items) => items
  | _ => []

/-- The records of `latest/search_index.js`, in document order. -/
def latestDocs : List JSValue := docs latest.documenterSearchIndex

/-- The records of `release-0.1/search_index.js`, in document order. -/
def releaseDocs : List JSValue := docs release.documenterSearchIndex

/-- The string stored under `key` in the record at position `i` of `ds`. -/
def fieldAt (ds : List JSValue) (key : String) (i : Nat) : Option String :=
  (ds.get? i).bind (fun r => r.field key)

/-! ## Loading a script into a global scope -/

/-- The script `latest/search_index.js`: one `var` statement. -/
def latestScript : Script :=
  .varDecl "documenterSearchIndex" latest.documenterSearchIndex

/-- The script `release-0.1/search_index.js`: one `var` statement. -/
def releaseScript : Script :=
  .varDecl "documenterSearchIndex" release.documenterSearchIndex

/-- An own property of the global object: a data property with its value and
its writable flag, or an accessor property, with or without a setter. -/
inductive Property where
  | data (value : JSValue) (writable : Bool) : Property
  | accessor (hasSetter : Bool) : Property

/-- A global scope: the lexical declarations (`let`, `const`, `class`) of the
scripts run so far, the own properties of the global object (where `var` and
function declarations live), and whether the global object is extensible. -/
structure GlobalScope where
  lexical : List (String × JSValue)
  props : List (String × Property)
  extensible : Bool

/-- How running a script ends: normally, with the scope it leaves; with a
`SyntaxError` or a `TypeError` thrown before any statement has run (the scope
stays as it was); or by calling the setter of an accessor property with the
assigned value, whose code is not part of the script. -/
inductive Completion where
  | normal (g : GlobalScope) : Completion
  | throwSyntaxError : Completion
  | throwTypeError : Completion
  | setterCall (g : GlobalScope) (v : JSValue) : Completion

/-- A scope in which no script has run: no declarations, no properties, an
extensible global object. -/
def freshScope : GlobalScope := ⟨[], [], true⟩

/-- The lexical binding of `x`, if there is one. -/
def findLexical (g : GlobalScope) (x : String) : Option JSValue :=
  (g.lexical.find? (fun b => b.1 == x)).map (fun b => b.2)

/-- The own property `x` of the global object, if there is one. -/
def findProp (g : GlobalScope) (x : String) : Option Property :=
  (g.props.find? (fun b => b.1 == x)).map (fun b => b.2)

/-- The value the identifier `x` reads in `g`: its lexical binding when there is
one, otherwise the value of the data property `x` of the global object; `none`
when `x` is neither (the result of an accessor's getter is not part of the
scope). -/
def lookupVar (g : GlobalScope) (x : String) : Option JSValue :=
  match findLexical g x with
  | some v => some v
  | none =>
    match findProp g x with
    | some (.data v _) => some v
    | _ => none

/-- The check of a `var x` declaration against the global object: it is allowed
when `x` is already an own property or the global object is extensible. -/
def canDeclareGlobalVar (g : GlobalScope) (x : String) : Bool :=
  (findProp g x).isSome || g.extensible

/-- Hoisting of `var x`: a scope that already has the property `x` is left as it
is, otherwise `x` becomes a writable data property holding `undefined`. -/
def declareVar (g : GlobalScope) (x : String) : GlobalScope :=
  if (findProp g x).isSome then g
  else if g.extensible then
    { g with props := g.props ++ [(x, Property.data JSValue.undefined true)] }
  else g

/-- Overwrites the value of the first property named `x`. -/
def replaceProp : List (String × Property) → String → JSValue → List (String × Property)
  | [], _, _ => []
  | (y, p) :: rest, x, v =>
    if y == x then (y, Property.data v true) :: rest else (y, p) :: replaceProp rest x v

/-- The assignment `x = v` outside strict mode, `x` not lexically declared: a
writable data property takes the value; a read-only data property, or an
accessor without a setter, silently keeps what it has; an accessor with a
setter has its setter called; and a name that is no property becomes one when
the global object is extensible. -/
def assignVar (g : GlobalScope) (x : String) (v : JSValue) : Completion :=
  match findProp g x with
  | some (.data _ true) => .normal { g with props := replaceProp g.props x v }
  | some (.data _ false) => .normal g
  | some (.accessor true) => .setterCall g v
  | some (.accessor false) => .normal g
  | none =>
    if g.extensible then .normal { g with props := g.props ++ [(x, Property.data v true)] }
    else .normal g

/-- Running the script `var name = init` in the global scope `g`.  Before any
statement runs the declaration is checked: a lexical declaration of `name`
makes the script a `SyntaxError`, and a global object that can not take the
property a `TypeError`.  Then the declaration is hoisted and the initialiser is
assigned. -/
def load (s : Script) (g : GlobalScope) : Completion :=
  if (findLexical g s.name).isSome then .throwSyntaxError
  else if canDeclareGlobalVar g s.name then assignVar (declareVar g s.name) s.name s.init
  else .throwTypeError

/-- The scope `g` takes a `var x = ...` statement: `x` has no lexical
declaration, and either is no property of an extensible global object or is a
writable data property of it. -/
def AcceptsVar (g : GlobalScope) (x : String) : Prop :=
  findLexical g x = none ∧
  ((findProp g x = none ∧ g.extensible = true) ∨ ∃ w, findProp g x = some (.data w true))

/-- The value `v` can be read under some name of `g`. -/
def Available (g : GlobalScope) (v : JSValue) : Prop :=
  ∃ x, lookupVar g x = some v

/-! ## Properties of records -/

/-- The five keys of the input record schema, in the order the generator writes them. -/
def schemaKeys : List String := ["location", "page", "title", "category", "text"]

/-- A record conforms to the input record schema: it is an object whose keys are
exactly the five schema keys, each written once, and each value is a string. -/
def ConformsToSchema (r : JSValue) : Prop :=
  r.isObj = true ∧ r.keys = schemaKeys ∧ ∀ v ∈ r.values, v.isStr = true

instance (r : JSValue) : Decidable (ConformsToSchema r) := by
  unfold ConformsToSchema; infer_instance

/-- The field `key` of `r` is present and is a non-empty string. -/
def NonEmptyField (r : JSValue) (key : String) : Prop :=
  ∃ s, r.field key = some s ∧ s ≠ ""

instance (r : JSValue) (key : String) : Decidable (NonEmptyField r key) :=
  decidable_of_iff (r.field key ≠ none ∧ r.field key ≠ some "") (by
    unfold NonEmptyField
    cases r.field key with
    | none => simp
    | some s => simp)

/-- The condition of `InvalidRecordError`: `location` is missing or empty. -/
def InvalidRecord (r : JSValue) : Prop :=
  r.field "location" = none ∨ r.field "location" = some ""

/-- The field `location` is a unique key of `ds`: records at distinct positions
have different locations. -/
def UniqueLocations (ds : List JSValue) : Prop :=
  ∀ i j : Fin ds.length, i ≠ j → (ds.get i).field "location" ≠ (ds.get j).field "location"

/-- The condition of `DuplicateLocationError`: two records of `ds` share the
same `location`. -/
def SharedLocation (ds : List JSValue) : Prop :=
  ∃ i j : Fin ds.length, i ≠ j ∧ (ds.get i).field "location" = (ds.get j).field "location"

/-- The string ends with the character `#`. -/
def endsWithHash (s : String) : Bool :=
  s.data.getLast? == some '#'

/-- Splits a character list at its first `#`: the part up to and including the
`#`, and the part after it; `none` when there is no `#`. -/
def splitAtHash : List Char → Option (List Char × List Char)
  | [] => none
  | c :: cs =>
    if c = '#' then some (['#'], cs)
    else (splitAtHash cs).map (fun p => (c :: p.1, p.2))

/-- The part of a location up to and including its first `#`. -/
def filePart (loc : String) : Option String :=
  (splitAtHash loc.data).map (fun p => String.mk p.1)

/-- The fragment of a location: what follows its first `#`. -/
def fragment (loc : String) : Option String :=
  (splitAtHash loc.data).map (fun p => String.mk p.2)

/-- The text of a record is empty exactly when the record is a page, and a
record with empty text has a non-empty title. -/
def EmptyTextIffPage (r : JSValue) : Prop :=
  (r.field "text" = some "" ↔ r.field "category" = some "page") ∧
  (r.field "text" = some "" → NonEmptyField r "title")

instance (r : JSValue) : Decidable (EmptyTextIffPage r) := by
  unfold EmptyTextIffPage; infer_instance

/-- The category of a record is `page` or `section`; it is `page` exactly when
the location ends with `#`, and then the title is the page name; the location
of a `section` has a `#` followed by a non-empty fragment. -/
def CategoryMatchesLocation (r : JSValue) : Prop :=
  (r.field "category" = some "page" ∨ r.field "category" = some "section") ∧
  (r.field "category" = some "page" ↔ (r.field "location").map endsWithHash = some true) ∧
  (r.field "category" = some "page" → r.field "title" ≠ none ∧ r.field "title" = r.field "page") ∧
  (r.field "category" = some "section" →
    (r.field "location").bind fragment ≠ none ∧ (r.field "location").bind fragment ≠ some "")

instance (r : JSValue) : Decidable (CategoryMatchesLocation r) := by
  unfold CategoryMatchesLocation; infer_instance

/-- Position `i` starts a run of records of one page: it is the first position,
or the record before it belongs to another page. -/
def StartsRun (ds : List JSValue) (i : Nat) : Prop :=
  i = 0 ∨ fieldAt ds "page" (i - 1) ≠ fieldAt ds "page" i

instance (ds : List JSValue) (i : Nat) : Decidable (StartsRun ds i) := by
  unfold StartsRun; infer_instance

/-- Every record of `ds` has a page and a location. -/
def PagesPresent (ds : List JSValue) : Prop :=
  ∀ i < ds.length, fieldAt ds "page" i ≠ none ∧ fieldAt ds "location" i ≠ none

instance (ds : List JSValue) : Decidable (PagesPresent ds) := by
  unfold PagesPresent; infer_instance

/-- The records of one page are contiguous: a record between two records of a
page is of that page. -/
def PagesContiguous (ds : List JSValue) : Prop :=
  ∀ k < ds.length, ∀ j < k, ∀ i < j,
    fieldAt ds "page" i = fieldAt ds "page" k → fieldAt ds "page" j = fieldAt ds "page" i

instance (ds : List JSValue) : Decidable (PagesContiguous ds) := by
  unfold PagesContiguous; infer_instance

/-- The record that starts a run has category `page`. -/
def RunsStartWithPage (ds : List JSValue) : Prop :=
  ∀ i < ds.length, StartsRun ds i → fieldAt ds "category" i = some "page"

instance (ds : List JSValue) : Decidable (RunsStartWithPage ds) := by
  unfold RunsStartWithPage; infer_instance

/-- Every record of a run has, as the part of its location up to and including
the first `#`, the location of the record that starts the run. -/
def RunsShareFilePart (ds : List JSValue) : Prop :=
  ∀ i < ds.length, ∀ j < ds.length, StartsRun ds i →
    fieldAt ds "page" j = fieldAt ds "page" i →
    (fieldAt ds "location" j).bind filePart = fieldAt ds "location" i

instance (ds : List JSValue) : Decidable (RunsShareFilePart ds) := by
  unfold RunsShareFilePart; infer_instance

/-- Two records have the same page exactly when their locations have the same
part up to and including the first `#`. -/
def PageIffFilePart (ds : List JSValue) : Prop :=
  ∀ i < ds.length, ∀ j < ds.length,
    (fieldAt ds "page" i = fieldAt ds "page" j ↔
      (fieldAt ds "location" i).bind filePart = (fieldAt ds "location" j).bind filePart)

instance (ds : List JSValue) : Decidable (PageIffFilePart ds) := by
  unfold PageIffFilePart; infer_instance

/-- The records of `ds` are grouped by page, in document order. -/
def GroupedByPage (ds : List JSValue) : Prop :=
  PagesPresent ds ∧ PagesContiguous ds ∧ RunsStartWithPage ds ∧
  RunsShareFilePart ds ∧ PageIffFilePart ds

instance (ds : List JSValue) : Decidable (GroupedByPage ds) := by
  unfold GroupedByPage; infer_instance

set_option maxRecDepth 100000

/-! ## Scope lemmas -/

theorem find_replaceProp (ps : List (String × Property)) (x : String) (v : JSValue)
    (p : Property) (h : (ps.find? (fun b => b.1 == x)).map (fun b => b.2) = some p) :
    ((replaceProp ps x v).find? (fun b => b.1 == x)).map (fun b => b.2)
      = some (Property.data v true) := by
  induction ps with
  | nil => simp at h
  | cons b rest ih =>
    obtain ⟨y, q⟩ := b
    by_cases hy : y = x
    · simp [replaceProp, hy]
    · rw [List.find?_cons_of_neg _ (by simp [hy])] at h
      have hstep : replaceProp ((y, q) :: rest) x v = (y, q) :: replaceProp rest x v := by
        simp [replaceProp, hy]
      rw [hstep, List.find?_cons_of_neg _ (by simp [hy])]
      exact ih h

theorem find_append_new (ps : List (String × Property)) (x : String) (p : Property)
    (h : (ps.find? (fun b => b.1 == x)).map (fun b => b.2) = none) :
    ((ps ++ [(x, p)]).find? (fun b => b.1 == x)).map (fun b => b.2) = some p := by
  induction ps with
  | nil => simp
  | cons b rest ih =>
    obtain ⟨y, q⟩ := b
    by_cases hy : y = x
    · simp [hy] at h
    · rw [List.find?_cons_of_neg _ (by simp [hy])] at h
      rw [List.cons_append, List.find?_cons_of_neg _ (by simp [hy])]
      exact ih h

theorem assignVar_writable (g : GlobalScope) (x : String) (v w : JSValue)
    (h : findProp g x = some (.data w true)) :
    assignVar g x v = .normal (GlobalScope.mk g.lexical (replaceProp g.props x v) g.extensible) := by
  unfold assignVar
  rw [h]

theorem load_eq_assignVar (s : Script) (g : GlobalScope) (hlex : findLexical g s.name = none)
    (hc : canDeclareGlobalVar g s.name = true) :
    load s g = assignVar (declareVar g s.name) s.name s.init := by
  unfold load
  rw [hlex, hc]
  rfl

theorem load_of_acceptsVar (s : Script) (g : GlobalScope) (h : AcceptsVar g s.name) :
    ∃ g1, load s g = .normal g1 ∧ lookupVar g1 s.name = some s.init ∧ AcceptsVar g1 s.name := by
  obtain ⟨hlex, hprop⟩ := h
  have hval : ∀ ps : List (String × Property),
      findProp (GlobalScope.mk g.lexical ps g.extensible) s.name = some (Property.data s.init true) →
      lookupVar (GlobalScope.mk g.lexical ps g.extensible) s.name = some s.init := by
    intro ps hf
    have hl : findLexical (GlobalScope.mk g.lexical ps g.extensible) s.name = none := hlex
    unfold lookupVar
    rw [hl, hf]
  rcases hprop with ⟨hnone, hext⟩ | ⟨w, hw⟩
  · have hnew := find_append_new g.props s.name (Property.data JSValue.undefined true) hnone
    have hrep := find_replaceProp _ s.name s.init _ hnew
    have hc : canDeclareGlobalVar g s.name = true := by simp [canDeclareGlobalVar, hext]
    have hd : declareVar g s.name = GlobalScope.mk g.lexical
        (g.props ++ [(s.name, Property.data JSValue.undefined true)]) g.extensible := by
      simp [declareVar, hnone, hext]
    have hload := load_eq_assignVar s g hlex hc
    have hf : findProp (GlobalScope.mk g.lexical
        (g.props ++ [(s.name, Property.data JSValue.undefined true)]) g.extensible) s.name
        = some (Property.data JSValue.undefined true) := hnew
    rw [hd, assignVar_writable _ _ _ _ hf] at hload
    exact ⟨_, hload, hval _ hrep, ⟨hlex, Or.inr ⟨s.init, hrep⟩⟩⟩
  · have hrep := find_replaceProp g.props s.name s.init _ hw
    have hc : canDeclareGlobalVar g s.name = true := by simp [canDeclareGlobalVar, hw]
    have hd : declareVar g s.name = g := by simp [declareVar, hw]
    have hload := load_eq_assignVar s g hlex hc
    rw [hd, assignVar_writable _ _ _ _ hw] at hload
    exact ⟨_, hload, hval _ hrep, ⟨hlex, Or.inr ⟨s.init, hrep⟩⟩⟩

theorem load_lexical_throws (s : Script) (g : GlobalScope) (v : JSValue)
    (h : findLexical g s.name = some v) : load s g = .throwSyntaxError := by
  simp [load, h]

theorem load_readOnly_keeps (s : Script) (g : GlobalScope) (w : JSValue)
    (hlex : findLexical g s.name = none) (h : findProp g s.name = some (.data w false)) :
    load s g = .normal g := by
  simp [load, hlex, canDeclareGlobalVar, declareVar, assignVar, h]

theorem load_nonExtensible_throws (s : Script) (g : GlobalScope)
    (hlex : findLexical g s.name = none) (h : findProp g s.name = none)
    (hext : g.extensible = false) : load s g = .throwTypeError := by
  simp [load, hlex, canDeclareGlobalVar, h, hext]

theorem latest_ne_release : latest.documenterSearchIndex ≠ release.documenterSearchIndex := by
  intro h
  have hlen : (docs latest.documenterSearchIndex).length = (docs release.documenterSearchIndex).length := by rw [h]
  revert hlen
  decide

theorem nodup_unique (ds : List JSValue)
    (h : (ds.map (fun r => r.field "location")).Nodup) : UniqueLocations ds := by
  intro i j hij heq
  apply hij
  have hinj := List.nodup_iff_injective_get.mp h
  have hi : i.val < (ds.map (fun r => r.field "location")).length := by simp
  have hj : j.val < (ds.map (fun r => r.field "location")).length := by simp
  have hget : (ds.map (fun r => r.field "location")).get ⟨i.val, hi⟩
      = (ds.map (fun r => r.field "location")).get ⟨j.val, hj⟩ := by
    simpa using heq
  have := hinj hget
  exact Fin.ext (by simpa using congrArg Fin.val this)

theorem unique_not_shared (ds : List JSValue) (h : UniqueLocations ds) : ¬ SharedLocation ds := by
  rintro ⟨i, j, hij, heq⟩
  exact h i j hij heq

theorem latest_locations_nodup : (latestDocs.map (fun r => r.field "location")).Nodup := by
  decide

theorem release_locations_nodup : (releaseDocs.map (fun r => r.field "location")).Nodup := by
  decide

/-! ## The shipped corpora -/

/-- C1: in each shipped corpus `location` is a unique key (records at distinct
positions of `docs` have different locations), so no two records share a
location, which is the condition of `DuplicateLocationError`. -/
theorem shipped_locations_unique :
    UniqueLocations latestDocs ∧ UniqueLocations releaseDocs ∧
    ¬ SharedLocation latestDocs ∧ ¬ SharedLocation releaseDocs :=
  ⟨nodup_unique _ latest_locations_nodup, nodup_unique _ release_locations_nodup,
   unique_not_shared _ (nodup_unique _ latest_locations_nodup),
   unique_not_shared _ (nodup_unique _ release_locations_nodup)⟩

/-- C2: every record of both shipped corpora has a `location` that is present
and is a non-empty string, so no shipped record meets the condition of
`InvalidRecordError`. -/
theorem shipped_locations_nonempty :
    (∀ r ∈ latestDocs, NonEmptyField r "location" ∧ ¬ InvalidRecord r) ∧
    (∀ r ∈ releaseDocs, NonEmptyField r "location" ∧ ¬ InvalidRecord r) := by
  have key : ∀ r : JSValue, NonEmptyField r "location" →
      NonEmptyField r "location" ∧ ¬ InvalidRecord r := by
    intro r h
    refine ⟨h, ?_⟩
    obtain ⟨s, hs, hne⟩ := h
    unfold InvalidRecord
    rw [hs]
    simp [hne]
  have h1 : ∀ r ∈ latestDocs, NonEmptyField r "location" := by decide
  have h2 : ∀ r ∈ releaseDocs, NonEmptyField r "location" := by decide
  exact ⟨fun r hr => key r (h1 r hr), fun r hr => key r (h2 r hr)⟩

/-- C3: `documenterSearchIndex.docs` has 14 elements in `latest` and 12 in
`release-0.1`, and every element is an object with exactly the five keys
`location`, `page`, `title`, `category`, `text`, each holding a string. -/
theorem shipped_records_conform :
    latestDocs.length = 14 ∧ releaseDocs.length = 12 ∧
    (∀ r ∈ latestDocs, ConformsToSchema r) ∧ (∀ r ∈ releaseDocs, ConformsToSchema r) := by
  decide

/-- C4: in both shipped corpora the text of a record is empty exactly when its
category is `page`, and every record with empty text has a non-empty title. -/
theorem shipped_empty_text_iff_page :
    (∀ r ∈ latestDocs, EmptyTextIffPage r) ∧ (∀ r ∈ releaseDocs, EmptyTextIffPage r) := by
  decide

/-- C9: for every record of both shipped corpora the category is `page` or
`section`; it is `page` exactly when the location ends with `#`, in which case
the title equals the page; and the location of every `section` record has a `#`
followed by a non-empty fragment. -/
theorem shipped_category_matches_location :
    (∀ r ∈ latestDocs, CategoryMatchesLocation r) ∧
    (∀ r ∈ releaseDocs, CategoryMatchesLocation r) := by
  decide

/-- C10: in both shipped corpora the records are grouped by page in document
order: the records of a page form one contiguous run, the first record of each
run is the `page` record, and every record of the run has a location whose
part up to and including the first `#` is the location of that first record,
so that page and file part determine each other. -/
theorem shipped_grouped_by_page :
    GroupedByPage latestDocs ∧ GroupedByPage releaseDocs := by
  decide

/-- C8, as the claim states it, fails: in a fresh scope, loading one script
after the other completes normally and changes the value bound by the first
load, in either order, and once both are loaded the corpus loaded first can be
read under no name. -/
theorem second_load_replaces_first :
    (∃ g1 g2, load latestScript freshScope = .normal g1 ∧ load releaseScript g1 = .normal g2 ∧
      lookupVar g1 "documenterSearchIndex" = some latest.documenterSearchIndex ∧
      lookupVar g2 "documenterSearchIndex" ≠ lookupVar g1 "documenterSearchIndex" ∧
      ¬ Available g2 latest.documenterSearchIndex) ∧
    (∃ g1 g2, load releaseScript freshScope = .normal g1 ∧ load latestScript g1 = .normal g2 ∧
      lookupVar g1 "documenterSearchIndex" = some release.documenterSearchIndex ∧
      lookupVar g2 "documenterSearchIndex" ≠ lookupVar g1 "documenterSearchIndex" ∧
      ¬ Available g2 release.documenterSearchIndex) := by
  have hne := latest_ne_release
  refine ⟨⟨⟨[], [("documenterSearchIndex", .data latest.documenterSearchIndex true)], true⟩,
      ⟨[], [("documenterSearchIndex", .data release.documenterSearchIndex true)], true⟩,
      rfl, rfl, rfl, ?_, ?_⟩,
    ⟨⟨[], [("documenterSearchIndex", .data release.documenterSearchIndex true)], true⟩,
      ⟨[], [("documenterSearchIndex", .data latest.documenterSearchIndex true)], true⟩,
      rfl, rfl, rfl, ?_, ?_⟩⟩
  · simp [lookupVar, findLexical, findProp]
    exact fun h => hne h.symm
  · rintro ⟨x, hx⟩
    by_cases hxn : "documenterSearchIndex" = x
    · simp [lookupVar, findLexical, findProp, hxn] at hx
      exact hne hx.symm
    · simp [lookupVar, findLexical, findProp, hxn] at hx
  · simp [lookupVar, findLexical, findProp]
    exact hne
  · rintro ⟨x, hx⟩
    by_cases hxn : "documenterSearchIndex" = x
    · simp [lookupVar, findLexical, findProp, hxn] at hx
      exact hne hx
    · simp [lookupVar, findLexical, findProp, hxn] at hx

/-- C8, amended: both scripts declare the one global name
`documenterSearchIndex`.  In a scope that takes such a `var` statement (no
lexical declaration of the name, which is either no property of an extensible
global object or a writable data property), each script loads normally and
leaves its own corpus bound to the name, and after both have loaded, in either
order, the name is bound to the corpus of the script loaded last; the two
corpora are different values. -/
theorem load_binds_last_corpus (g : GlobalScope)
    (h : AcceptsVar g "documenterSearchIndex") :
    latestScript.name = "documenterSearchIndex" ∧
    releaseScript.name = "documenterSearchIndex" ∧
    (∃ g1 g2, load latestScript g = .normal g1 ∧
      lookupVar g1 "documenterSearchIndex" = some latest.documenterSearchIndex ∧
      load releaseScript g1 = .normal g2 ∧
      lookupVar g2 "documenterSearchIndex" = some release.documenterSearchIndex) ∧
    (∃ g1 g2, load releaseScript g = .normal g1 ∧
      lookupVar g1 "documenterSearchIndex" = some release.documenterSearchIndex ∧
      load latestScript g1 = .normal g2 ∧
      lookupVar g2 "documenterSearchIndex" = some latest.documenterSearchIndex) ∧
    latest.documenterSearchIndex ≠ release.documenterSearchIndex := by
  refine ⟨rfl, rfl, ?_, ?_, latest_ne_release⟩
  · obtain ⟨g1, h1, v1, a1⟩ := load_of_acceptsVar latestScript g h
    obtain ⟨g2, h2, v2, _⟩ := load_of_acceptsVar releaseScript g1 a1
    exact ⟨g1, g2, h1, v1, h2, v2⟩
  · obtain ⟨g1, h1, v1, a1⟩ := load_of_acceptsVar releaseScript g h
    obtain ⟨g2, h2, v2, _⟩ := load_of_acceptsVar latestScript g1 a1
    exact ⟨g1, g2, h1, v1, h2, v2⟩

/-- The fresh scope takes the `var` statement, so both scripts load into it and
the script loaded last decides what `documenterSearchIndex` is bound to. -/
theorem load_binds_last_corpus_fresh :
    AcceptsVar freshScope "documenterSearchIndex" ∧
    (∃ g1 g2, load latestScript freshScope = .normal g1 ∧
      lookupVar g1 "documenterSearchIndex" = some latest.documenterSearchIndex ∧
      load releaseScript g1 = .normal g2 ∧
      lookupVar g2 "documenterSearchIndex" = some release.documenterSearchIndex) :=
  ⟨⟨rfl, Or.inl ⟨rfl, rfl⟩⟩,
   (load_binds_last_corpus freshScope ⟨rfl, Or.inl ⟨rfl, rfl⟩⟩).2.2.1⟩

end SearchIndex
